import Mathlib

/-!
Shallow embedding of the `gauth` CLI tool (src/index.ts and its compiled
variants). The program is a sequential pipeline of cloud-API calls:
resolve project → resolve IAP OAuth brand client → resolve or impersonate
an identity → request a signed ID token. We model the outside world (the
environment variables and the responses of every external endpoint) as an
explicit `World` record, and each source function as a pure Lean function
from the world to its result, paired with the trace of outbound calls it
performs. Errors are the plain tagged objects the source throws, modelled
with `Except`.

The repository carries two variants of the program. The primary variant
(src/index.ts lines 1-201, compiled as src/index.js) has the managed-runtime
check and a `fetchEmail` that catches its own failure; the secondary variant
(the second half of src/index.ts, compiled as src/unnamed/part_001) lacks
the managed-runtime check and owns the dead `cachedAuthorizationHeaderValue`
module constant. Both are embedded below; `V2` names belong to the
secondary variant.
-/

deriving instance DecidableEq for Except

namespace Gauth

/-- JavaScript string truthiness for `string | undefined` values:
`undefined` and the empty string are falsy. -/
def truthy : Option String → Bool
  | none => false
  | some s => s ≠ ""

/-- JavaScript falsiness for `string | undefined` values. -/
def jsFalsy (a : Option String) : Bool := !(truthy a)

/-- JavaScript `a || b` on `string | undefined` operands. -/
def jsOrOpt (a b : Option String) : Option String :=
  if jsFalsy a then b else a

/-- JavaScript `a || b` where the right operand is a plain string. -/
def jsOrS (a : Option String) (b : String) : String :=
  match a with
  | none => b
  | some s => if s = "" then b else s

/-- The environment variables the program consults (`process.env`). -/
structure Env where
  PROJECT_ID : Option String
  GOOGLE_CLOUD_PROJECT : Option String
  GOOGLE_CLOUD_REGION : Option String
  GAE_SERVICE : Option String
deriving Repr, DecidableEq

/-- src/index.ts `isManagedRuntime`: `!!(env.GOOGLE_CLOUD_REGION || env.GAE_SERVICE)`. -/
def isManagedRuntime (env : Env) : Bool :=
  truthy env.GOOGLE_CLOUD_REGION || truthy env.GAE_SERVICE

/-- The auth client returned by `auth.getClient()`; the code only
distinguishes `instanceof JWT` (with its optional `email` field) from
every other client type. -/
inductive SourceClient where
  | jwt (email : Option String)
  | other
deriving Repr, DecidableEq

/-- The `email` field visible through the `instanceof JWT` check:
`undefined` when the source client is not a JWT. -/
def jwtEmail : SourceClient → Option String
  | .jwt e => e
  | .other => none

/-- The credential body returned by `auth.getCredentials()`; the code reads
only `client_email`. -/
structure CredentialBody where
  client_email : Option String
deriving Repr, DecidableEq

/-- One element of the IAP brand client listing (`listIdentityAwareProxyClients`). -/
structure IapClient where
  displayName : Option String
  name : String
deriving Repr, DecidableEq

/-- src/index.ts `RETRY_CONFIG` shape. -/
structure RetryConfig where
  httpMethodsToRetry : List String
deriving Repr, DecidableEq

/-- src/index.ts lines 9-11. -/
def RETRY_CONFIG : RetryConfig :=
  { httpMethodsToRetry := ["GET", "PUT", "POST", "HEAD", "OPTIONS", "DELETE"] }

/-- The request record built by `DefaultEnhancedIdTokenProvider.fetchIdToken`. -/
structure GenerateIdTokenRequest where
  method : String
  url : String
  delegates : List String
  audience : String
  includeEmail : Bool
  retry : Bool
  retryConfig : RetryConfig
deriving Repr, DecidableEq

/-- src/index.ts `FetchIdTokenOptions`. -/
structure FetchIdTokenOptions where
  includeEmail : Bool
deriving Repr, DecidableEq

/-- The outcome of the userinfo HTTP request, as supplied by the world:
either a response carrying an `email` field, or a transport failure. -/
inductive UserinfoOutcome where
  | ok (email : String)
  | failure
deriving Repr, DecidableEq

/-- Everything external the program observes during one run. -/
structure World where
  env : Env
  sourceClient : SourceClient
  credentials : CredentialBody
  userinfo : UserinfoOutcome
  projectName : String
  iapClients : List IapClient
deriving Repr, DecidableEq

/-- The outbound calls a run can perform, in program order. -/
inductive Call where
  | getClient
  | getProject (name : String)
  | listIapClients (parent : String)
  | getCredentialsCall
  | getAccessTokenCall
  | userinfoRequest (url : String) (retryConfig : RetryConfig)
  | generateIdToken (req : GenerateIdTokenRequest)
  | impersonatedFetch (audience : String)
deriving Repr, DecidableEq

/-- The plain tagged error objects the source throws. -/
structure ErrorObj where
  type : String
  title : String
  message : String
deriving Repr, DecidableEq

/-- src/index.ts lines 104-113 (`assert`) applied to a `string | undefined`
argument: JS truthiness rejects both `undefined` and the empty string. All
call sites pass no `context`, so the message is `inspect(undefined)`. -/
def assertString (union : Option String) (entity : String) : Except ErrorObj String :=
  if truthy union then .ok (union.getD "")
  else .error
    { type := "illegal-state/entity-not-found"
      title := "Object failed validation [" ++ entity ++ "]"
      message := "undefined" }

/-- src/index.ts lines 104-113 (`assert`) applied to an object-typed
argument: a present object is always truthy. -/
def assertObj (union : Option α) (entity : String) : Except ErrorObj α :=
  match union with
  | some v => .ok v
  | none => .error
    { type := "illegal-state/entity-not-found"
      title := "Object failed validation [" ++ entity ++ "]"
      message := "undefined" }

def userinfoURL : String := "https://www.googleapis.com/oauth2/v3/userinfo"

def ENDPOINT : String := "https://iamcredentials.googleapis.com"

/-- src/index.ts `DefaultEnhancedIdTokenProvider` instance state. -/
structure DefaultEnhancedIdTokenProvider where
  client_email : String
  sourceClient : SourceClient
deriving Repr, DecidableEq

/-- src/index.ts lines 62-81: the generateIdToken request the provider
issues for a target audience. -/
def DefaultEnhancedIdTokenProvider.fetchIdTokenRequest
    (p : DefaultEnhancedIdTokenProvider) (targetAudience : String)
    (options : Option FetchIdTokenOptions) : GenerateIdTokenRequest :=
  let name := "projects/-/serviceAccounts/" ++ p.client_email
  let url := ENDPOINT ++ "/v1/" ++ name ++ ":generateIdToken"
  { method := "POST"
    url := url
    delegates := []
    audience := targetAudience
    includeEmail := (options.map (fun o => o.includeEmail)).getD true
    retry := true
    retryConfig := RETRY_CONFIG }

/-- The provider variants `createIdTokenProvider` can return. -/
inductive EnhancedIdTokenProvider where
  | impersonated (projectId : String) (targetPrincipal : String) (targetScopes : List String)
  | defaultProvider (p : DefaultEnhancedIdTokenProvider)
deriving Repr, DecidableEq

def targetScopes : List String :=
  ["https://www.googleapis.com/auth/cloud-platform", "https://www.googleapis.com/auth/userinfo.email"]

/-- src/index.ts lines 84-102 (`fetchEmail`, primary variant): performs the
userinfo request and catches any failure, returning the empty string. -/
def fetchEmail (w : World) : String × List Call :=
  let calls := [Call.getAccessTokenCall, Call.userinfoRequest userinfoURL RETRY_CONFIG]
  match w.userinfo with
  | .ok email => (email, calls)
  | .failure => ("", calls)

/-- The email the managed path resolves (src/index.ts lines 148-149):
`credentials.client_email || (sourceClient instanceof JWT ? sourceClient.email
: undefined) || (await fetchEmail(auth))`. -/
def resolvedEmail (w : World) : String :=
  jsOrS (jsOrOpt w.credentials.client_email (jwtEmail w.sourceClient)) (fetchEmail w).1

/-- src/index.ts lines 115-159 (`createIdTokenProvider`, primary variant). -/
def createIdTokenProvider (w : World) (projectId targetAudience : String)
    (targetPrincipal : Option String) :
    Except ErrorObj EnhancedIdTokenProvider × List Call :=
  let calls0 := [Call.getClient]
  if truthy targetPrincipal then
    (.ok (.impersonated projectId (targetPrincipal.getD "") targetScopes), calls0)
  else if !isManagedRuntime w.env then
    (.error
      { type := "illegal-access/iap-local"
        title := "Forbidden IAP from local"
        message := "Use impersonation" }, calls0)
  else
    let calls1 := calls0 ++ [Call.getCredentialsCall]
    let pre := jsOrOpt w.credentials.client_email (jwtEmail w.sourceClient)
    if truthy pre then
      (.ok (.defaultProvider { client_email := pre.getD "", sourceClient := w.sourceClient }),
        calls1)
    else
      let fe := fetchEmail w
      (.ok (.defaultProvider { client_email := fe.1, sourceClient := w.sourceClient }),
        calls1 ++ fe.2)

/-- `ProjectsClient.projectPath` / `IdentityAwareProxyOAuthServiceClient.projectPath`:
`projects/<projectId>`. -/
def projectPath (projectId : String) : String := "projects/" ++ projectId

/-- Character scan behind `lastSegment`: keeps the segment accumulated
since the most recent `/`. -/
def lastSegmentAux : List Char → List Char → List Char
  | [], acc => acc.reverse
  | c :: cs, acc => if c = '/' then lastSegmentAux cs [] else lastSegmentAux cs (c :: acc)

/-- JS `s.split('/').pop()!`: the substring after the last `/` — the whole
string when no `/` occurs, empty when `s` ends with `/` (matching
`split`'s trailing empty segment). Implemented as a structural scan so
concrete runs reduce inside the kernel. -/
def lastSegment (s : String) : String := ⟨lastSegmentAux s.data []⟩

/-- src/index.ts lines 161-175 (`init`, primary variant). -/
def init (w : World) (targetPrincipal : Option String) :
    Except ErrorObj (EnhancedIdTokenProvider × String) × List Call :=
  match assertString (jsOrOpt w.env.PROJECT_ID w.env.GOOGLE_CLOUD_PROJECT) "projectId envars" with
  | .error e => (.error e, [])
  | .ok projectId =>
    let calls0 := [Call.getProject (projectPath projectId)]
    match assertString (some (lastSegment w.projectName))
        "ProjectsClient.project.name.projectNumber" with
    | .error e => (.error e, calls0)
    | .ok projectNumber =>
      let parent := projectPath projectId ++ "/brands/" ++ projectNumber
      let calls1 := calls0 ++ [Call.listIapClients parent]
      match assertObj
          (w.iapClients.find? (fun c => c.displayName == some "IAP-App-Engine-app"))
          "IdentityAwareProxyOAuthServiceClient.find[IAP-App-Engine-app]" with
      | .error e => (.error e, calls1)
      | .ok appEngineClient =>
        let targetAudience := lastSegment appEngineClient.name
        let created := createIdTokenProvider w projectId targetAudience targetPrincipal
        ((created.1).map (fun p => (p, targetAudience)), calls1 ++ created.2)

/-- How the single token fetch of `main` was performed. -/
inductive TokenFetch where
  | viaImpersonation (targetPrincipal : String) (audience : String)
  | viaGenerateIdToken (req : GenerateIdTokenRequest)
deriving Repr, DecidableEq

/-- The targetAudience string handed to the provider's `fetchIdToken`. -/
def audiencePassed : TokenFetch → String
  | .viaImpersonation _ a => a
  | .viaGenerateIdToken req => req.audience

/-- src/index.ts lines 182-194 (`main`, primary variant): run `init`, then
fetch one token with `{includeEmail: true}`. -/
def main (w : World) (targetPrincipal : Option String) :
    Except ErrorObj TokenFetch × List Call :=
  match init w targetPrincipal with
  | (.error e, calls) => (.error e, calls)
  | (.ok (provider, targetAudience), calls) =>
    match provider with
    | .impersonated _ principal _ =>
      (.ok (.viaImpersonation principal targetAudience),
        calls ++ [Call.impersonatedFetch targetAudience])
    | .defaultProvider p =>
      let req := p.fetchIdTokenRequest targetAudience (some { includeEmail := true })
      (.ok (.viaGenerateIdToken req),
        calls ++ [Call.getAccessTokenCall, Call.generateIdToken req])

/-- The observable outcome of the whole process: the exit code and the
structured error objects dumped to standard error by the top-level catch
(src/index.ts lines 196-201). -/
structure ProcessResult where
  exitCode : Nat
  stderrErrors : List ErrorObj
deriving Repr, DecidableEq

/-- The whole run with the top-level `.catch` handler applied. -/
def runProcess (w : World) (targetPrincipal : Option String) :
    ProcessResult × List Call :=
  match main w targetPrincipal with
  | (.ok _, calls) => ({ exitCode := 0, stderrErrors := [] }, calls)
  | (.error e, calls) => ({ exitCode := 1, stderrErrors := [e] }, calls)

/-- RFC 7231 section 4.2.2: the idempotent HTTP request methods. -/
def isIdempotentMethod : String → Bool
  | "GET" => true
  | "HEAD" => true
  | "OPTIONS" => true
  | "TRACE" => true
  | "PUT" => true
  | "DELETE" => true
  | _ => false

/-- Recognizer for the generateIdToken request in a trace. -/
def isGenerateIdTokenCall : Call → Bool
  | .generateIdToken _ => true
  | _ => false

/-- Recognizer for the userinfo request in a trace. -/
def isUserinfoCall : Call → Bool
  | .userinfoRequest _ _ => true
  | _ => false

/-! ## Secondary variant

The second half of src/index.ts (compiled as src/unnamed/part_001): no
managed-runtime gate, a `fetchEmail` that propagates its failure, and the
module-level `cachedAuthorizationHeaderValue` constant that no function
reads or writes. The module state (that cache entry) is threaded through
every function explicitly so that the frame property is a theorem about
the embedding rather than a remark. -/

/-- src/index.ts lines 208-211 (`CacheEntry`). -/
structure CacheEntry (T : Type) where
  expiresInMilliseconds : Nat
  payload : T
deriving Repr, DecidableEq

/-- src/index.ts line 303 / src/unnamed/part_001 line 60. -/
def cachedAuthorizationHeaderValue : CacheEntry String :=
  { expiresInMilliseconds := 0, payload := "" }

/-- src/index.ts lines 288-301 (`fetchEmail`, secondary variant): no catch,
a transport failure propagates. The module cache is threaded unchanged. -/
def fetchEmailV2 (w : World) (cache : CacheEntry String) :
    (Except Unit String × List Call) × CacheEntry String :=
  let calls := [Call.getAccessTokenCall, Call.userinfoRequest userinfoURL RETRY_CONFIG]
  match w.userinfo with
  | .ok email => ((.ok email, calls), cache)
  | .failure => ((.error (), calls), cache)

/-- src/index.ts lines 316-347 (`createIdTokenProvider`, secondary variant):
no managed-runtime check; the try/catch around email resolution converts a
userinfo failure into the service-account/not-found error. -/
def createIdTokenProviderV2 (w : World) (projectId : String)
    (targetPrincipal : Option String) (cache : CacheEntry String) :
    (Except ErrorObj EnhancedIdTokenProvider × List Call) × CacheEntry String :=
  let calls0 := [Call.getClient]
  if truthy targetPrincipal then
    ((.ok (.impersonated projectId (targetPrincipal.getD "") targetScopes), calls0), cache)
  else
    let calls1 := calls0 ++ [Call.getCredentialsCall]
    let pre := jsOrOpt w.credentials.client_email (jwtEmail w.sourceClient)
    if truthy pre then
      ((.ok (.defaultProvider { client_email := pre.getD "", sourceClient := w.sourceClient }),
        calls1), cache)
    else
      match fetchEmailV2 w cache with
      | ((.ok email, fc), cache1) =>
        ((.ok (.defaultProvider { client_email := email, sourceClient := w.sourceClient }),
          calls1 ++ fc), cache1)
      | ((.error _, fc), cache1) =>
        ((.error
          { type := "service-account/not-found"
            title := "Impersonation Needed"
            message := "In this compute context, you MUST use service account impersonation" },
          calls1 ++ fc), cache1)

/-- src/index.ts lines 349-363 (`init`, secondary variant). -/
def initV2 (w : World) (targetPrincipal : Option String) (cache : CacheEntry String) :
    (Except ErrorObj (EnhancedIdTokenProvider × String) × List Call) × CacheEntry String :=
  match assertString (jsOrOpt w.env.PROJECT_ID w.env.GOOGLE_CLOUD_PROJECT) "projectId envars" with
  | .error e => ((.error e, []), cache)
  | .ok projectId =>
    let calls0 := [Call.getProject (projectPath projectId)]
    match assertString (some (lastSegment w.projectName))
        "ProjectsClient.project.name.projectNumber" with
    | .error e => ((.error e, calls0), cache)
    | .ok projectNumber =>
      let parent := projectPath projectId ++ "/brands/" ++ projectNumber
      let calls1 := calls0 ++ [Call.listIapClients parent]
      match assertObj
          (w.iapClients.find? (fun c => c.displayName == some "IAP-App-Engine-app"))
          "IdentityAwareProxyOAuthServiceClient.find[IAP-App-Engine-app]" with
      | .error e => ((.error e, calls1), cache)
      | .ok appEngineClient =>
        let targetAudience := lastSegment appEngineClient.name
        match createIdTokenProviderV2 w projectId targetPrincipal cache with
        | ((res, calls2), cache1) =>
          ((res.map (fun p => (p, targetAudience)), calls1 ++ calls2), cache1)

/-- src/index.ts lines 370-375 (`main`, secondary variant): the target
principal is `args[0]` (the `args.length < 0` guard is never true). -/
def mainV2 (w : World) (args : List String) (cache : CacheEntry String) :
    (Except ErrorObj TokenFetch × List Call) × CacheEntry String :=
  let targetPrincipal := args.head?
  match initV2 w targetPrincipal cache with
  | ((.error e, calls), cache1) => ((.error e, calls), cache1)
  | ((.ok (provider, targetAudience), calls), cache1) =>
    match provider with
    | .impersonated _ principal _ =>
      ((.ok (.viaImpersonation principal targetAudience),
        calls ++ [Call.impersonatedFetch targetAudience]), cache1)
    | .defaultProvider p =>
      let req := p.fetchIdTokenRequest targetAudience (some { includeEmail := true })
      ((.ok (.viaGenerateIdToken req),
        calls ++ [Call.getAccessTokenCall, Call.generateIdToken req]), cache1)

/-! ## Helper lemmas -/

theorem truthy_none : truthy none = false := rfl

theorem truthy_some_iff (s : String) : truthy (some s) = true ↔ s ≠ "" := by
  simp [truthy]

theorem jsOrS_of_truthy (a : Option String) (b : String) (h : truthy a = true) :
    jsOrS a b = a.getD "" := by
  cases a with
  | none => simp [truthy] at h
  | some s =>
    rw [truthy_some_iff] at h
    simp [jsOrS, h]

theorem jsOrS_of_falsy (a : Option String) (b : String) (h : truthy a = false) :
    jsOrS a b = b := by
  cases a with
  | none => rfl
  | some s =>
    simp [truthy] at h
    simp [jsOrS, h]

theorem jsOrOpt_of_truthy (a b : Option String) (h : truthy a = true) :
    jsOrOpt a b = a := by
  simp [jsOrOpt, jsFalsy, h]

theorem jsOrOpt_of_falsy (a b : Option String) (h : truthy a = false) :
    jsOrOpt a b = b := by
  simp [jsOrOpt, jsFalsy, h]

theorem generateIdToken_url_shape (p : DefaultEnhancedIdTokenProvider) (aud : String)
    (o : Option FetchIdTokenOptions) :
    (p.fetchIdTokenRequest aud o).url =
      "https://iamcredentials.googleapis.com/v1/projects/-/serviceAccounts/"
        ++ p.client_email ++ ":generateIdToken" := by
  simp [DefaultEnhancedIdTokenProvider.fetchIdTokenRequest, ENDPOINT, ← String.append_assoc]

theorem generateIdToken_method (p : DefaultEnhancedIdTokenProvider) (aud : String)
    (o : Option FetchIdTokenOptions) : (p.fetchIdTokenRequest aud o).method = "POST" := rfl

/-! ## Claim theorems -/

/-- C1: with no target principal, managed-runtime signals present and a
resolvable caller email, the email is resolved with priority
credentials' client_email, then the JWT's email, then the userinfo
fallback, and the resulting `fetchIdToken` request is a POST to
`https://iamcredentials.googleapis.com/v1/projects/‑/serviceAccounts/<resolved email>:generateIdToken`
(the dash segment rendered with a non-breaking hyphen here to keep the
comment well formed; the theorem states the exact string). -/
theorem c1_managed_email_resolution (w : World) (projectId targetAudience : String)
    (targetPrincipal : Option String)
    (htp : truthy targetPrincipal = false)
    (hmr : isManagedRuntime w.env = true)
    (hres : resolvedEmail w ≠ "") :
    (createIdTokenProvider w projectId targetAudience targetPrincipal).1 =
      .ok (.defaultProvider
        { client_email := resolvedEmail w, sourceClient := w.sourceClient }) ∧
    (∀ s, w.credentials.client_email = some s → s ≠ "" → resolvedEmail w = s) ∧
    (∀ e, truthy w.credentials.client_email = false →
      w.sourceClient = .jwt (some e) → e ≠ "" → resolvedEmail w = e) ∧
    (truthy w.credentials.client_email = false →
      truthy (jwtEmail w.sourceClient) = false → resolvedEmail w = (fetchEmail w).1) ∧
    (DefaultEnhancedIdTokenProvider.fetchIdTokenRequest
      { client_email := resolvedEmail w, sourceClient := w.sourceClient }
      targetAudience (some { includeEmail := true })).method = "POST" ∧
    (DefaultEnhancedIdTokenProvider.fetchIdTokenRequest
      { client_email := resolvedEmail w, sourceClient := w.sourceClient }
      targetAudience (some { includeEmail := true })).url =
      "https://iamcredentials.googleapis.com/v1/projects/-/serviceAccounts/"
        ++ resolvedEmail w ++ ":generateIdToken" := by
  refine ⟨?_, ?_, ?_, ?_, generateIdToken_method _ _ _, generateIdToken_url_shape _ _ _⟩
  · simp only [createIdTokenProvider, htp, hmr, Bool.not_true, Bool.false_eq_true,
      if_false, resolvedEmail]
    by_cases hpre :
        truthy (jsOrOpt w.credentials.client_email (jwtEmail w.sourceClient)) = true
    · rw [if_pos hpre, jsOrS_of_truthy _ _ hpre]
    · rw [Bool.not_eq_true] at hpre
      rw [if_neg (by simp [hpre]), jsOrS_of_falsy _ _ hpre]
  · intro s hs hne
    rw [resolvedEmail, jsOrOpt_of_truthy _ _ (by rw [hs, truthy_some_iff]; exact hne),
      jsOrS_of_truthy _ _ (by rw [hs, truthy_some_iff]; exact hne), hs]
    rfl
  · intro e hcred hjwt hne
    rw [resolvedEmail, jsOrOpt_of_falsy _ _ hcred, hjwt]
    rw [jsOrS_of_truthy _ _ (by rw [jwtEmail, truthy_some_iff]; exact hne)]
    rfl
  · intro hcred hjwt
    rw [resolvedEmail, jsOrOpt_of_falsy _ _ hcred, jsOrS_of_falsy _ _ hjwt]

def wC1 : World :=
  { env := { PROJECT_ID := some "p", GOOGLE_CLOUD_PROJECT := none
             GOOGLE_CLOUD_REGION := some "us-east1", GAE_SERVICE := none }
    sourceClient := .other
    credentials := { client_email := some "sa@example.com" }
    userinfo := .failure
    projectName := "projects/123"
    iapClients := [] }

/-- Witness for C1 at a concrete world. -/
theorem c1_managed_email_resolution_witness :
    truthy (none : Option String) = false ∧ isManagedRuntime wC1.env = true ∧
    resolvedEmail wC1 ≠ "" ∧
    (createIdTokenProvider wC1 "p" "aud" none).1 =
      .ok (.defaultProvider
        { client_email := "sa@example.com", sourceClient := SourceClient.other }) :=
  ⟨rfl, rfl, by decide,
    (c1_managed_email_resolution wC1 "p" "aud" none rfl rfl (by decide)).1⟩

/-- C2: whenever a target principal is supplied (a nonempty string, the
only values the `if (targetPrincipal)` guard accepts), the provider is the
`Impersonated` variant, regardless of the managed-runtime signals. -/
theorem c2_target_principal_impersonates (w : World) (projectId targetAudience : String)
    (targetPrincipal : Option String) (htp : truthy targetPrincipal = true) :
    (createIdTokenProvider w projectId targetAudience targetPrincipal).1 =
      .ok (.impersonated projectId (targetPrincipal.getD "") targetScopes) := by
  simp [createIdTokenProvider, htp]

def wLocal : World :=
  { env := { PROJECT_ID := some "p", GOOGLE_CLOUD_PROJECT := none
             GOOGLE_CLOUD_REGION := none, GAE_SERVICE := none }
    sourceClient := .other
    credentials := { client_email := none }
    userinfo := .failure
    projectName := "projects/123"
    iapClients := [] }

/-- Witness for C2 at a concrete world with no managed-runtime signals. -/
theorem c2_target_principal_impersonates_witness :
    truthy (some "admin@example.com") = true ∧
    (createIdTokenProvider wLocal "p" "aud" (some "admin@example.com")).1 =
      .ok (.impersonated "p" "admin@example.com" targetScopes) :=
  ⟨by decide,
    c2_target_principal_impersonates wLocal "p" "aud" (some "admin@example.com") (by decide)⟩

/-- C3: with no target principal and no managed-runtime signal, the
provider construction fails with the `illegal-access/iap-local` error and
its trace is just the `getClient` call: it performs neither the
`getCredentials` call nor the userinfo request (the JWT email check, a
pure field read, is likewise never reached since the whole identity
resolution is skipped). -/
theorem c3_local_run_forbidden (w : World) (projectId targetAudience : String)
    (targetPrincipal : Option String)
    (htp : truthy targetPrincipal = false) (hmr : isManagedRuntime w.env = false) :
    createIdTokenProvider w projectId targetAudience targetPrincipal =
      (.error
        { type := "illegal-access/iap-local"
          title := "Forbidden IAP from local"
          message := "Use impersonation" }, [Call.getClient]) ∧
    Call.getCredentialsCall ∉ (createIdTokenProvider w projectId targetAudience targetPrincipal).2 ∧
    (∀ u rc, Call.userinfoRequest u rc ∉
      (createIdTokenProvider w projectId targetAudience targetPrincipal).2) := by
  have h : createIdTokenProvider w projectId targetAudience targetPrincipal =
      (.error
        { type := "illegal-access/iap-local"
          title := "Forbidden IAP from local"
          message := "Use impersonation" }, [Call.getClient]) := by
    simp [createIdTokenProvider, htp, hmr]
  refine ⟨h, ?_, ?_⟩
  · rw [h]; simp
  · intro u rc; rw [h]; simp

/-- Witness for C3 at a concrete world. -/
theorem c3_local_run_forbidden_witness :
    truthy (none : Option String) = false ∧ isManagedRuntime wLocal.env = false ∧
    createIdTokenProvider wLocal "p" "aud" none =
      (.error
        { type := "illegal-access/iap-local"
          title := "Forbidden IAP from local"
          message := "Use impersonation" }, [Call.getClient]) :=
  ⟨rfl, rfl, (c3_local_run_forbidden wLocal "p" "aud" none rfl rfl).1⟩

/-- C10: in the managed path, with no credentials email, a non-JWT source
client and a failing userinfo request, `fetchEmail` swallows the failure
and returns the empty string, so `createIdTokenProvider` still returns a
`DefaultEnhancedIdTokenProvider` with `client_email = ""` — whose request
URL is `.../projects/‑/serviceAccounts/:generateIdToken` (exact string in
the theorem; non-breaking hyphen here) — instead of
throwing the `service-account/not-found` error. -/
theorem c10_empty_email_fallback (w : World) (projectId targetAudience : String)
    (targetPrincipal : Option String)
    (htp : truthy targetPrincipal = false)
    (hmr : isManagedRuntime w.env = true)
    (hcred : truthy w.credentials.client_email = false)
    (hjwt : w.sourceClient = .other)
    (hui : w.userinfo = .failure) :
    (createIdTokenProvider w projectId targetAudience targetPrincipal).1 =
      .ok (.defaultProvider { client_email := "", sourceClient := w.sourceClient }) ∧
    (∀ e, (createIdTokenProvider w projectId targetAudience targetPrincipal).1 ≠ .error e) ∧
    (DefaultEnhancedIdTokenProvider.fetchIdTokenRequest
      { client_email := "", sourceClient := w.sourceClient }
      targetAudience (some { includeEmail := true })).url =
      "https://iamcredentials.googleapis.com/v1/projects/-/serviceAccounts/:generateIdToken" := by
  have hpre : truthy (jsOrOpt w.credentials.client_email (jwtEmail w.sourceClient)) = false := by
    rw [jsOrOpt_of_falsy _ _ hcred, hjwt]; rfl
  have h : (createIdTokenProvider w projectId targetAudience targetPrincipal).1 =
      .ok (.defaultProvider { client_email := "", sourceClient := w.sourceClient }) := by
    simp only [createIdTokenProvider, htp, hmr, Bool.not_true, Bool.false_eq_true, if_false]
    rw [if_neg (by simp [hpre])]
    simp [fetchEmail, hui]
  refine ⟨h, ?_, ?_⟩
  · intro e; rw [h]; simp
  · rw [generateIdToken_url_shape]
    rfl

def wC10 : World :=
  { env := { PROJECT_ID := some "p", GOOGLE_CLOUD_PROJECT := none
             GOOGLE_CLOUD_REGION := none, GAE_SERVICE := some "default" }
    sourceClient := .other
    credentials := { client_email := none }
    userinfo := .failure
    projectName := "projects/123"
    iapClients := [] }

/-- Witness for C10 at a concrete world. -/
theorem c10_empty_email_fallback_witness :
    truthy (none : Option String) = false ∧ isManagedRuntime wC10.env = true ∧
    truthy wC10.credentials.client_email = false ∧ wC10.sourceClient = .other ∧
    wC10.userinfo = .failure ∧
    (createIdTokenProvider wC10 "p" "aud" none).1 =
      .ok (.defaultProvider { client_email := "", sourceClient := SourceClient.other }) :=
  ⟨rfl, rfl, rfl, rfl, rfl,
    (c10_empty_email_fallback wC10 "p" "aud" none rfl rfl rfl rfl rfl).1⟩

theorem assertString_error_type (u : Option String) (ent : String) (e : ErrorObj)
    (h : assertString u ent = .error e) : e.type = "illegal-state/entity-not-found" := by
  unfold assertString at h
  split at h
  · simp at h
  · simp only [Except.error.injEq] at h
    rw [← h]

theorem assertObj_error_type {α : Type} (u : Option α) (ent : String) (e : ErrorObj)
    (h : assertObj u ent = .error e) : e.type = "illegal-state/entity-not-found" := by
  unfold assertObj at h
  split at h
  · simp at h
  · simp only [Except.error.injEq] at h
    rw [← h]

theorem assertObj_eq_ok {α : Type} (u : Option α) (ent : String) (v : α)
    (h : assertObj u ent = .ok v) : u = some v := by
  cases u with
  | none => simp [assertObj] at h
  | some x => simpa [assertObj] using h

theorem main_audience (w : World) (tp : Option String) (p : EnhancedIdTokenProvider)
    (aud : String) (r : TokenFetch)
    (h : (init w tp).1 = .ok (p, aud)) (hr : (main w tp).1 = .ok r) :
    audiencePassed r = aud := by
  rcases hI : init w tp with ⟨res, calls⟩
  rw [hI] at h
  simp only at h
  subst h
  unfold main at hr
  rw [hI] at hr
  cases p with
  | impersonated pid principal scopes =>
    simp only [Except.ok.injEq] at hr
    rw [← hr]
    rfl
  | defaultProvider q =>
    simp only [Except.ok.injEq] at hr
    rw [← hr]
    rfl

/-- C4: whenever `init` succeeds, the targetAudience it returns — and hands
to the provider's `fetchIdToken` in `main` — equals the trailing path
segment of the resource name of the first listed IAP brand client whose
displayName is `IAP-App-Engine-app`. -/
theorem c4_audience_from_iap_client (w : World) (targetPrincipal : Option String)
    (p : EnhancedIdTokenProvider) (aud : String)
    (h : (init w targetPrincipal).1 = .ok (p, aud)) :
    ∃ c, w.iapClients.find? (fun c => c.displayName == some "IAP-App-Engine-app") = some c ∧
      c.displayName = some "IAP-App-Engine-app" ∧
      aud = lastSegment c.name ∧
      (∀ r, (main w targetPrincipal).1 = .ok r → audiencePassed r = aud) := by
  have h' := h
  unfold init at h'
  rcases hA : assertString (jsOrOpt w.env.PROJECT_ID w.env.GOOGLE_CLOUD_PROJECT)
      "projectId envars" with e | projectId
  · rw [hA] at h'
    simp at h'
  · rw [hA] at h'
    rcases hB : assertString (some (lastSegment w.projectName))
        "ProjectsClient.project.name.projectNumber" with e | projectNumber
    · rw [hB] at h'
      simp at h'
    · rw [hB] at h'
      rcases hC : assertObj
          (w.iapClients.find? (fun c => c.displayName == some "IAP-App-Engine-app"))
          "IdentityAwareProxyOAuthServiceClient.find[IAP-App-Engine-app]" with e | c
      · rw [hC] at h'
        simp at h'
      · rw [hC] at h'
        simp only [Except.map] at h'
        refine ⟨c, assertObj_eq_ok _ _ _ hC, ?_, ?_, ?_⟩
        · have := List.find?_some (assertObj_eq_ok _ _ _ hC)
          simpa using this
        · rcases hcr : (createIdTokenProvider w projectId
              (lastSegment c.name) targetPrincipal).1 with e' | q
          · rw [hcr] at h'
            simp at h'
          · rw [hcr] at h'
            simp at h'
            exact h'.2.symm
        · intro r hr
          exact main_audience w targetPrincipal p aud r h hr

def wC4 : World :=
  { env := { PROJECT_ID := some "p", GOOGLE_CLOUD_PROJECT := none
             GOOGLE_CLOUD_REGION := some "us-east1", GAE_SERVICE := none }
    sourceClient := .other
    credentials := { client_email := some "sa@example.com" }
    userinfo := .failure
    projectName := "projects/123"
    iapClients :=
      [{ displayName := some "other-app", name := "projects/123/brands/123/identityAwareProxyClients/zzz" },
       { displayName := some "IAP-App-Engine-app", name := "projects/123/brands/123/identityAwareProxyClients/abc.apps.example" }] }

/-- Witness for C4 at a concrete world with two listed clients. -/
theorem c4_audience_from_iap_client_witness :
    (init wC4 none).1 =
      .ok (.defaultProvider
        { client_email := "sa@example.com", sourceClient := SourceClient.other },
        "abc.apps.example") ∧
    ∃ c, wC4.iapClients.find? (fun c => c.displayName == some "IAP-App-Engine-app") = some c ∧
      c.displayName = some "IAP-App-Engine-app" ∧
      "abc.apps.example" = lastSegment c.name :=
  ⟨by rfl, by
    obtain ⟨c, h1, h2, h3, _⟩ :=
      c4_audience_from_iap_client wC4 none
        (.defaultProvider { client_email := "sa@example.com", sourceClient := SourceClient.other })
        "abc.apps.example" (by rfl)
    exact ⟨c, h1, h2, h3⟩⟩

/-- C5: when no listed IAP brand client has displayName
`IAP-App-Engine-app`, `init` fails with an `illegal-state/entity-not-found`
error, the process exit code is 1, and no token fetch (neither the
generateIdToken request nor the impersonated fetch) happens. -/
theorem c5_no_appengine_client (w : World) (targetPrincipal : Option String)
    (hfind : w.iapClients.find? (fun c => c.displayName == some "IAP-App-Engine-app") = none) :
    (∃ e, (init w targetPrincipal).1 = .error e ∧ e.type = "illegal-state/entity-not-found") ∧
    (runProcess w targetPrincipal).1.exitCode = 1 ∧
    (∀ req, Call.generateIdToken req ∉ (runProcess w targetPrincipal).2) ∧
    (∀ a, Call.impersonatedFetch a ∉ (runProcess w targetPrincipal).2) := by
  have key : ∃ e calls, init w targetPrincipal = (.error e, calls) ∧
      e.type = "illegal-state/entity-not-found" ∧
      (∀ req, Call.generateIdToken req ∉ calls) ∧
      (∀ a, Call.impersonatedFetch a ∉ calls) := by
    unfold init
    rcases hA : assertString (jsOrOpt w.env.PROJECT_ID w.env.GOOGLE_CLOUD_PROJECT)
        "projectId envars" with e | projectId
    · exact ⟨e, [], rfl, assertString_error_type _ _ _ hA, by simp, by simp⟩
    · rcases hB : assertString (some (lastSegment w.projectName))
          "ProjectsClient.project.name.projectNumber" with e | projectNumber
      · exact ⟨e, [Call.getProject (projectPath projectId)], rfl,
          assertString_error_type _ _ _ hB, by simp, by simp⟩
      · rcases hC : assertObj
            (w.iapClients.find? (fun c => c.displayName == some "IAP-App-Engine-app"))
            "IdentityAwareProxyOAuthServiceClient.find[IAP-App-Engine-app]" with e | c
        · exact ⟨e,
            [Call.getProject (projectPath projectId),
             Call.listIapClients (projectPath projectId ++ "/brands/" ++ projectNumber)],
            by rw [hC]; rfl, assertObj_error_type _ _ _ hC, by simp, by simp⟩
        · rw [hfind] at hC
          simp [assertObj] at hC
  obtain ⟨e, calls, hI, htype, hg, hi⟩ := key
  have hm : main w targetPrincipal = (.error e, calls) := by
    unfold main
    rw [hI]
  have hr : runProcess w targetPrincipal = ({ exitCode := 1, stderrErrors := [e] }, calls) := by
    unfold runProcess
    rw [hm]
  refine ⟨⟨e, by rw [hI], htype⟩, by rw [hr], ?_, ?_⟩
  · intro req
    rw [hr]
    exact hg req
  · intro a
    rw [hr]
    exact hi a

def wC5 : World :=
  { env := { PROJECT_ID := some "p", GOOGLE_CLOUD_PROJECT := none
             GOOGLE_CLOUD_REGION := some "us-east1", GAE_SERVICE := none }
    sourceClient := .other
    credentials := { client_email := some "sa@example.com" }
    userinfo := .failure
    projectName := "projects/123"
    iapClients := [{ displayName := some "other-app", name := "projects/123/x" }] }

/-- Witness for C5 at a concrete world whose listing has no matching client. -/
theorem c5_no_appengine_client_witness :
    wC5.iapClients.find? (fun c => c.displayName == some "IAP-App-Engine-app") = none ∧
    (runProcess wC5 none).1.exitCode = 1 :=
  ⟨by decide, (c5_no_appengine_client wC5 none (by decide)).2.1⟩

/-- C6: with both `PROJECT_ID` and `GOOGLE_CLOUD_PROJECT` unset or empty,
`init` fails with an `illegal-state/entity-not-found` error before any
outbound call (its trace is empty, so no Resource Manager, IAP, IAM
credentials or userinfo request happened), and the process exit code is 1. -/
theorem c6_missing_project_env (w : World) (targetPrincipal : Option String)
    (h1 : truthy w.env.PROJECT_ID = false) (h2 : truthy w.env.GOOGLE_CLOUD_PROJECT = false) :
    (∃ e, (init w targetPrincipal).1 = .error e ∧ e.type = "illegal-state/entity-not-found") ∧
    (init w targetPrincipal).2 = [] ∧
    (runProcess w targetPrincipal).1.exitCode = 1 ∧
    (runProcess w targetPrincipal).2 = [] := by
  have hfal : truthy (jsOrOpt w.env.PROJECT_ID w.env.GOOGLE_CLOUD_PROJECT) = false := by
    rw [jsOrOpt_of_falsy _ _ h1]
    exact h2
  have hA : assertString (jsOrOpt w.env.PROJECT_ID w.env.GOOGLE_CLOUD_PROJECT)
      "projectId envars" =
      .error
        { type := "illegal-state/entity-not-found"
          title := "Object failed validation [projectId envars]"
          message := "undefined" } := by
    unfold assertString
    rw [hfal]
    rfl
  have hI : init w targetPrincipal =
      (.error
        { type := "illegal-state/entity-not-found"
          title := "Object failed validation [projectId envars]"
          message := "undefined" }, []) := by
    unfold init
    rw [hA]
  have hm : main w targetPrincipal =
      (.error
        { type := "illegal-state/entity-not-found"
          title := "Object failed validation [projectId envars]"
          message := "undefined" }, []) := by
    unfold main
    rw [hI]
  have hr : runProcess w targetPrincipal =
      ({ exitCode := 1
         stderrErrors :=
           [{ type := "illegal-state/entity-not-found"
              title := "Object failed validation [projectId envars]"
              message := "undefined" }] }, []) := by
    unfold runProcess
    rw [hm]
  exact ⟨⟨_, by rw [hI], rfl⟩, by rw [hI], by rw [hr], by rw [hr]⟩

def wEmptyEnv : World :=
  { env := { PROJECT_ID := none, GOOGLE_CLOUD_PROJECT := some ""
             GOOGLE_CLOUD_REGION := some "us-east1", GAE_SERVICE := none }
    sourceClient := .other
    credentials := { client_email := some "sa@example.com" }
    userinfo := .failure
    projectName := "projects/123"
    iapClients := [] }

/-- Witness for C6 at a concrete world with `PROJECT_ID` unset and
`GOOGLE_CLOUD_PROJECT` empty. -/
theorem c6_missing_project_env_witness :
    truthy wEmptyEnv.env.PROJECT_ID = false ∧
    truthy wEmptyEnv.env.GOOGLE_CLOUD_PROJECT = false ∧
    (init wEmptyEnv none).2 = [] ∧ (runProcess wEmptyEnv none).1.exitCode = 1 :=
  ⟨rfl, rfl, (c6_missing_project_env wEmptyEnv none rfl rfl).2.1,
    (c6_missing_project_env wEmptyEnv none rfl rfl).2.2.1⟩

/-- C8: a failing run's error is a plain tagged object (`ErrorObj`, with
`type`, `title` and `message` fields); it is not handled locally but
reaches the top-level catch, which dumps exactly that object to standard
error and sets exit code 1. -/
theorem c8_error_propagation (w : World) (targetPrincipal : Option String) (e : ErrorObj)
    (h : (main w targetPrincipal).1 = .error e) :
    (runProcess w targetPrincipal).1.exitCode = 1 ∧
    (runProcess w targetPrincipal).1.stderrErrors = [e] := by
  rcases hm : main w targetPrincipal with ⟨res, calls⟩
  rw [hm] at h
  simp only at h
  subst h
  unfold runProcess
  rw [hm]
  exact ⟨rfl, rfl⟩

/-- Witness for C8 at a concrete failing world. -/
theorem c8_error_propagation_witness :
    (main wEmptyEnv none).1 =
      .error
        { type := "illegal-state/entity-not-found"
          title := "Object failed validation [projectId envars]"
          message := "undefined" } ∧
    (runProcess wEmptyEnv none).1.exitCode = 1 ∧
    (runProcess wEmptyEnv none).1.stderrErrors =
      [{ type := "illegal-state/entity-not-found"
         title := "Object failed validation [projectId envars]"
         message := "undefined" }] :=
  ⟨by rfl,
    c8_error_propagation wEmptyEnv none
      { type := "illegal-state/entity-not-found"
        title := "Object failed validation [projectId envars]"
        message := "undefined" } (by rfl)⟩

theorem fetchEmailV2_cache (w : World) (c : CacheEntry String) :
    (fetchEmailV2 w c).2 = c := by
  unfold fetchEmailV2
  cases w.userinfo <;> rfl

theorem createIdTokenProviderV2_cache (w : World) (pid : String) (tp : Option String)
    (c : CacheEntry String) : (createIdTokenProviderV2 w pid tp c).2 = c := by
  unfold createIdTokenProviderV2
  by_cases h1 : truthy tp = true
  · rw [if_pos h1]
  · rw [if_neg h1]
    by_cases hp : truthy (jsOrOpt w.credentials.client_email (jwtEmail w.sourceClient)) = true
    · rw [if_pos hp]
    · rw [if_neg hp]
      cases hu : w.userinfo <;> simp [fetchEmailV2, hu]

theorem initV2_cache (w : World) (tp : Option String) (c : CacheEntry String) :
    (initV2 w tp c).2 = c := by
  unfold initV2
  rcases hA : assertString (jsOrOpt w.env.PROJECT_ID w.env.GOOGLE_CLOUD_PROJECT)
      "projectId envars" with e | projectId
  · rfl
  · rcases hB : assertString (some (lastSegment w.projectName))
        "ProjectsClient.project.name.projectNumber" with e | projectNumber
    · rfl
    · rcases hC : assertObj
          (w.iapClients.find? (fun c => c.displayName == some "IAP-App-Engine-app"))
          "IdentityAwareProxyOAuthServiceClient.find[IAP-App-Engine-app]" with e | cl
      · first
        | rfl
        | (rw [hC]; try rfl)
      · first
        | exact createIdTokenProviderV2_cache w projectId tp c
        | (rw [hC]; exact createIdTokenProviderV2_cache w projectId tp c)

theorem mainV2_cache (w : World) (args : List String) (c : CacheEntry String) :
    (mainV2 w args c).2 = c := by
  unfold mainV2
  dsimp only
  have h2 := initV2_cache w args.head? c
  rcases hI : initV2 w args.head? c with ⟨⟨res, calls⟩, c1⟩
  rw [hI] at h2
  simp only at h2
  subst h2
  try rw [hI]
  rcases res with e | ⟨provider, aud⟩
  · rfl
  · cases provider <;> rfl

/-- C9: the module-level `cachedAuthorizationHeaderValue` cell of the
secondary variant is dead state: no operation of the run reads or writes
it (the embedding threads it through every function untouched), so after
any run its value is still the initial `{expiresInMilliseconds: 0,
payload: ''}`. -/
theorem c9_cache_never_touched (w : World) (args : List String) (cache : CacheEntry String) :
    (mainV2 w args cache).2 = cache ∧
    (mainV2 w args cachedAuthorizationHeaderValue).2 =
      { expiresInMilliseconds := 0, payload := "" } :=
  ⟨mainV2_cache w args cache, mainV2_cache w args cachedAuthorizationHeaderValue⟩

theorem fetchEmail_calls (w : World) :
    (fetchEmail w).2 =
      [Call.getAccessTokenCall, Call.userinfoRequest userinfoURL RETRY_CONFIG] := by
  unfold fetchEmail
  cases w.userinfo <;> rfl

theorem createIdTokenProvider_trace (w : World) (pid aud : String) (tp : Option String) :
    (createIdTokenProvider w pid aud tp).2 = [Call.getClient] ∨
    (createIdTokenProvider w pid aud tp).2 = [Call.getClient, Call.getCredentialsCall] ∨
    (createIdTokenProvider w pid aud tp).2 =
      [Call.getClient, Call.getCredentialsCall, Call.getAccessTokenCall,
       Call.userinfoRequest userinfoURL RETRY_CONFIG] := by
  unfold createIdTokenProvider
  by_cases h1 : truthy tp = true
  · rw [if_pos h1]
    exact Or.inl rfl
  · rw [if_neg h1]
    by_cases h2 : (!isManagedRuntime w.env) = true
    · rw [if_pos h2]
      exact Or.inl rfl
    · rw [if_neg h2]
      by_cases h3 :
          truthy (jsOrOpt w.credentials.client_email (jwtEmail w.sourceClient)) = true
      · rw [if_pos h3]
        exact Or.inr (Or.inl rfl)
      · rw [if_neg h3]
        refine Or.inr (Or.inr ?_)
        simp [fetchEmail_calls]

theorem init_trace (w : World) (tp : Option String) :
    (init w tp).2 = [] ∨
    (∃ pid, (init w tp).2 = [Call.getProject (projectPath pid)]) ∨
    (∃ pid parent, (init w tp).2 =
      [Call.getProject (projectPath pid), Call.listIapClients parent]) ∨
    (∃ pid parent aud, (init w tp).2 =
      [Call.getProject (projectPath pid), Call.listIapClients parent] ++
        (createIdTokenProvider w pid aud tp).2) := by
  unfold init
  rcases hA : assertString (jsOrOpt w.env.PROJECT_ID w.env.GOOGLE_CLOUD_PROJECT)
      "projectId envars" with e | projectId
  · exact Or.inl rfl
  · rcases hB : assertString (some (lastSegment w.projectName))
        "ProjectsClient.project.name.projectNumber" with e | projectNumber
    · exact Or.inr (Or.inl ⟨projectId, rfl⟩)
    · rcases hC : assertObj
          (w.iapClients.find? (fun c => c.displayName == some "IAP-App-Engine-app"))
          "IdentityAwareProxyOAuthServiceClient.find[IAP-App-Engine-app]" with e | cl
      · refine Or.inr (Or.inr (Or.inl
          ⟨projectId, projectPath projectId ++ "/brands/" ++ projectNumber, ?_⟩))
        first
        | rfl
        | (rw [hC]; try rfl)
      · refine Or.inr (Or.inr (Or.inr
          ⟨projectId, projectPath projectId ++ "/brands/" ++ projectNumber,
           lastSegment cl.name, ?_⟩))
        first
        | rfl
        | (rw [hC]; try rfl)

theorem main_trace (w : World) (tp : Option String) :
    (main w tp).2 = (init w tp).2 ∨
    (∃ aud, (main w tp).2 = (init w tp).2 ++ [Call.impersonatedFetch aud]) ∨
    (∃ p aud, (main w tp).2 = (init w tp).2 ++
      [Call.getAccessTokenCall,
       Call.generateIdToken (DefaultEnhancedIdTokenProvider.fetchIdTokenRequest p aud
         (some { includeEmail := true }))]) := by
  unfold main
  rcases hI : init w tp with ⟨res, calls⟩
  rcases res with e | ⟨provider, aud⟩
  · exact Or.inl rfl
  · cases provider with
    | impersonated pid principal scopes => exact Or.inr (Or.inl ⟨aud, rfl⟩)
    | defaultProvider p => exact Or.inr (Or.inr ⟨p, aud, rfl⟩)

theorem createIdTokenProvider_counts (w : World) (pid aud : String) (tp : Option String) :
    (createIdTokenProvider w pid aud tp).2.countP isGenerateIdTokenCall = 0 ∧
    (createIdTokenProvider w pid aud tp).2.countP isUserinfoCall ≤ 1 := by
  rcases createIdTokenProvider_trace w pid aud tp with h | h | h <;> rw [h] <;>
    exact ⟨by decide, by decide⟩

theorem init_counts (w : World) (tp : Option String) :
    (init w tp).2.countP isGenerateIdTokenCall = 0 ∧
    (init w tp).2.countP isUserinfoCall ≤ 1 := by
  rcases init_trace w tp with h | ⟨pid, h⟩ | ⟨pid, parent, h⟩ | ⟨pid, parent, aud, h⟩ <;>
      rw [h]
  · exact ⟨by decide, by decide⟩
  · exact ⟨by simp [List.countP_cons, isGenerateIdTokenCall],
      by simp [List.countP_cons, isUserinfoCall]⟩
  · exact ⟨by simp [List.countP_cons, isGenerateIdTokenCall],
      by simp [List.countP_cons, isUserinfoCall]⟩
  · have hc := createIdTokenProvider_counts w pid aud tp
    constructor
    · rw [List.countP_append, hc.1]
      simp [List.countP_cons, isGenerateIdTokenCall]
    · rw [List.countP_append]
      have hpre : [Call.getProject (projectPath pid),
          Call.listIapClients parent].countP isUserinfoCall = 0 := by
        simp [List.countP_cons, isUserinfoCall]
      rw [hpre]
      simpa using hc.2

theorem createIdTokenProvider_userinfo_config (w : World) (pid aud : String)
    (tp : Option String) (u : String) (rc : RetryConfig)
    (h : Call.userinfoRequest u rc ∈ (createIdTokenProvider w pid aud tp).2) :
    rc = RETRY_CONFIG ∧ u = userinfoURL := by
  rcases createIdTokenProvider_trace w pid aud tp with ht | ht | ht <;> rw [ht] at h <;>
    simp at h
  exact ⟨h.2, h.1⟩

theorem init_userinfo_config (w : World) (tp : Option String) (u : String) (rc : RetryConfig)
    (h : Call.userinfoRequest u rc ∈ (init w tp).2) :
    rc = RETRY_CONFIG ∧ u = userinfoURL := by
  rcases init_trace w tp with ht | ⟨pid, ht⟩ | ⟨pid, parent, ht⟩ | ⟨pid, parent, aud, ht⟩ <;>
      rw [ht] at h
  · simp at h
  · simp at h
  · simp at h
  · rw [List.mem_append] at h
    rcases h with h | h
    · simp at h
    · exact createIdTokenProvider_userinfo_config w pid aud tp u rc h

theorem init_no_generate (w : World) (tp : Option String) (req : GenerateIdTokenRequest) :
    Call.generateIdToken req ∉ (init w tp).2 := by
  intro h
  have h0 := (init_counts w tp).1
  have h1 := List.countP_eq_zero.mp h0 _ h
  exact h1 rfl

/-- C7 as frozen is false on the code: the retry allowlist
`RETRY_CONFIG.httpMethodsToRetry` contains `POST`, which is not an
idempotent (let alone safe) HTTP method under RFC 7231 section 4.2.2. -/
theorem c7_counterexample :
    "POST" ∈ RETRY_CONFIG.httpMethodsToRetry ∧ isIdempotentMethod "POST" = false := by
  decide

/-- C7 (amended): the retry allowlist is the fixed list GET, PUT, POST,
HEAD, OPTIONS, DELETE; every method in it except POST is idempotent
(POST is not); and no application-level retry exists beyond this
HTTP-client allowlist: in any run each of the userinfo and generateIdToken
requests is issued at most once, and every such request carries exactly
this retry configuration. -/
theorem c7_retry_allowlist (w : World) (tp : Option String) :
    RETRY_CONFIG.httpMethodsToRetry = ["GET", "PUT", "POST", "HEAD", "OPTIONS", "DELETE"] ∧
    (∀ m ∈ RETRY_CONFIG.httpMethodsToRetry, m ≠ "POST" → isIdempotentMethod m = true) ∧
    (main w tp).2.countP isGenerateIdTokenCall ≤ 1 ∧
    (main w tp).2.countP isUserinfoCall ≤ 1 ∧
    (∀ u rc, Call.userinfoRequest u rc ∈ (main w tp).2 → rc = RETRY_CONFIG) ∧
    (∀ req, Call.generateIdToken req ∈ (main w tp).2 →
      req.retryConfig = RETRY_CONFIG ∧ req.retry = true) := by
  have hic := init_counts w tp
  refine ⟨rfl, by decide, ?_, ?_, ?_, ?_⟩
  · rcases main_trace w tp with hm | ⟨aud, hm⟩ | ⟨p, aud, hm⟩ <;> rw [hm]
    · rw [hic.1]
      decide
    · rw [List.countP_append, hic.1]
      simp [List.countP_cons, isGenerateIdTokenCall]
    · rw [List.countP_append, hic.1]
      simp [List.countP_cons, List.countP_nil, isGenerateIdTokenCall]
  · rcases main_trace w tp with hm | ⟨aud, hm⟩ | ⟨p, aud, hm⟩ <;> rw [hm]
    · exact hic.2
    · rw [List.countP_append]
      have : [Call.impersonatedFetch aud].countP isUserinfoCall = 0 := by
        simp [List.countP_cons, isUserinfoCall]
      rw [this]
      simpa using hic.2
    · rw [List.countP_append]
      have : [Call.getAccessTokenCall,
          Call.generateIdToken (DefaultEnhancedIdTokenProvider.fetchIdTokenRequest p aud
            (some { includeEmail := true }))].countP isUserinfoCall = 0 := by
        simp [List.countP_cons, isUserinfoCall]
      rw [this]
      simpa using hic.2
  · intro u rc h
    rcases main_trace w tp with hm | ⟨aud, hm⟩ | ⟨p, aud, hm⟩ <;> rw [hm] at h
    · exact (init_userinfo_config w tp u rc h).1
    · rw [List.mem_append] at h
      rcases h with h | h
      · exact (init_userinfo_config w tp u rc h).1
      · simp at h
    · rw [List.mem_append] at h
      rcases h with h | h
      · exact (init_userinfo_config w tp u rc h).1
      · simp at h
  · intro req h
    rcases main_trace w tp with hm | ⟨aud, hm⟩ | ⟨p, aud, hm⟩ <;> rw [hm] at h
    · exact absurd h (init_no_generate w tp req)
    · rw [List.mem_append] at h
      rcases h with h | h
      · exact absurd h (init_no_generate w tp req)
      · simp at h
    · rw [List.mem_append] at h
      rcases h with h | h
      · exact absurd h (init_no_generate w tp req)
      · simp at h
        subst h
        exact ⟨rfl, rfl⟩

/-- Witness for C7 (amended) at a concrete world and method. -/
theorem c7_retry_allowlist_witness :
    isIdempotentMethod "GET" = true ∧
    (main wEmptyEnv none).2.countP isGenerateIdTokenCall ≤ 1 :=
  ⟨(c7_retry_allowlist wEmptyEnv none).2.1 "GET" (by decide) (by decide),
   (c7_retry_allowlist wEmptyEnv none).2.2.1⟩

end Gauth
